import Mathlib

/-
Verification of the in-memory chat state and delivery engine of the
`DistributedChatServer` class (src/backend/src/ChatServer.ts).

The TypeScript class keeps five JS `Map`s (users, groups, messages,
userSocketMap, typingStatus) and mutates them from socket event handlers.
Here every handler of interest is translated into a pure function from a
`ServerState` (plus the request payload, the session's user id, and the
values the runtime supplies: current time, fresh uuid) to the successor
state and the callback response.  JS `Map`s become insertion-ordered
association lists with `mapGet` / `mapSet` / `mapDelete`, JS `Date`s become
`Nat` timestamps, and `setTimeout` for the typing indicator becomes an
explicit timer queue drained by a discrete-time simulator.
-/

namespace ChatApp

/-! ## Association-list maps (model of JS `Map`: insertion order, unique keys) -/

def mapGet {α : Type} : List (String × α) → String → Option α
  | [], _ => none
  | p :: rest, k => if p.1 == k then some p.2 else mapGet rest k

/-- JS `Map.set`: replace the entry in place if the key is present, else append. -/
def mapSet {α : Type} : List (String × α) → String → α → List (String × α)
  | [], k, v => [(k, v)]
  | p :: rest, k, v => if p.1 == k then (k, v) :: rest else p :: mapSet rest k v

def mapDelete {α : Type} : List (String × α) → String → List (String × α)
  | [], _ => []
  | p :: rest, k => if p.1 == k then mapDelete rest k else p :: mapDelete rest k

/-! ## Strings: the operations the handlers use

Core `String.trim` and the `String` order do not reduce in the kernel, so the
two string operations the source relies on are modelled directly over the
underlying character lists: `strTrim` is `String.prototype.trim` (for the
ASCII whitespace occurring here) and `strLe` is the lexicographic comparison
that `Array.prototype.sort` applies to the two-element id arrays (JS compares
code units; for the scalar values used as ids this is the order below, and
every property proved about the pairing key is independent of which total
order is fixed). -/

def wsChar (c : Char) : Bool := c == ' ' || c == '\t' || c == '\n' || c == '\r'

def strTrim (s : String) : String :=
  String.mk (((s.data.dropWhile wsChar).reverse.dropWhile wsChar).reverse)

def charListLe : List Char → List Char → Bool
  | [], _ => true
  | _ :: _, [] => false
  | a :: as, b :: bs =>
    if a.toNat < b.toNat then true
    else if b.toNat < a.toNat then false
    else charListLe as bs

def strLe (a b : String) : Bool := charListLe a.data b.data

/-! ## Data model (src/types/index.ts) -/

inductive MessageType where
  | group
  | privateMsg
  | system
deriving Repr, DecidableEq

structure User where
  id : String
  username : String
  socketId : String
  serverId : String
  groups : List String
  isOnline : Bool
  lastSeen : Nat
deriving Repr, DecidableEq

structure Group where
  id : String
  name : String
  description : Option String
  creator : String
  members : List String
  createdAt : Nat
deriving Repr, DecidableEq

structure RepliedSnapshot where
  id : String
  sender : String
  content : String
  timestamp : Nat
deriving Repr, DecidableEq

structure Message where
  id : String
  type : MessageType
  sender : String
  recipient : String
  content : String
  attachments : Option (List String)
  timestamp : Nat
  delivered : Bool
  read : Bool
  replyTo : Option String
  repliedMessage : Option RepliedSnapshot
  deletedForMe : Bool
  deletedForEveryone : Bool
  deletedBy : Option String
deriving Repr, DecidableEq

structure TypingEntry where
  chatId : String
  isPrivate : Bool
  timestamp : Nat
deriving Repr, DecidableEq

structure ServerState where
  serverId : String
  users : List (String × User)
  groups : List (String × Group)
  messages : List (String × List Message)
  userSocketMap : List (String × String)
  typingStatus : List (String × TypingEntry)
deriving Repr, DecidableEq

/-- Constructor state: `initializeSampleData` seeds four groups, each with an
empty member list, before any event is handled. -/
def initState (serverId : String) : ServerState :=
  { serverId := serverId
    users := []
    groups :=
      [ ("group-1", { id := "group-1", name := "General",
                      description := some "General discussions",
                      creator := "system", members := [], createdAt := 0 })
      , ("group-2", { id := "group-2", name := "Tech Talk",
                      description := some "Technology discussions",
                      creator := "system", members := [], createdAt := 0 })
      , ("group-3", { id := "group-3", name := "Random",
                      description := some "Random chat",
                      creator := "system", members := [], createdAt := 0 })
      , ("group-4", { id := "group-4", name := "Project Help",
                      description := some "Get help with projects",
                      creator := "system", members := [], createdAt := 0 }) ]
    messages := []
    userSocketMap := []
    typingStatus := [] }

/-- Pairwise conversation key: `[a, b].sort().join('_')` as computed by the
`message:private`, `messages:get`, `messages:more`, `message:read`,
`message:delete` and `chat:delete` handlers. -/
def conversationKey (a b : String) : String :=
  if strLe a b then a ++ "_" ++ b else b ++ "_" ++ a

/-! ## Presence Registry handlers -/

structure JoinResult where
  success : Bool
  error : Option String
  user : Option User
deriving Repr, DecidableEq

/-- Handler for `user:join` (ChatServer.ts lines 152-210).  `socketId` is the
connecting socket, `now` the clock value, `freshId` the uuid the runtime
would mint for a new user. -/
def userJoin (st : ServerState) (socketId username : String) (now : Nat)
    (freshId : String) : ServerState × JoinResult :=
  if strTrim username == "" then
    (st, { success := false, error := some "Username is required", user := none })
  else
    match st.users.find? (fun p => p.2.username == username && p.2.serverId == st.serverId) with
    | some p =>
      if p.2.isOnline then
        (st, { success := false, error := some "Username already taken", user := none })
      else
        let u : User := { p.2 with isOnline := true, socketId := socketId, lastSeen := now }
        ({ st with users := mapSet st.users p.1 u
                   userSocketMap := mapSet st.userSocketMap u.id socketId },
         { success := true, error := none, user := some u })
    | none =>
      let u : User := { id := freshId, username := strTrim username, socketId := socketId,
                        serverId := st.serverId, groups := [], isOnline := true, lastSeen := now }
      ({ st with users := mapSet st.users u.id u
                 userSocketMap := mapSet st.userSocketMap u.id socketId },
       { success := true, error := none, user := some u })

/-- Handler for `user:reconnect` (lines 212-235). -/
def userReconnect (st : ServerState) (socketId userId : String) (now : Nat) :
    ServerState × JoinResult :=
  match mapGet st.users userId with
  | some u =>
    let u' : User := { u with isOnline := true, socketId := socketId, lastSeen := now }
    ({ st with users := mapSet st.users userId u'
               userSocketMap := mapSet st.userSocketMap userId socketId },
     { success := true, error := none, user := some u' })
  | none => (st, { success := false, error := some "User not found", user := none })

/-- `handleUserDisconnect` (lines 1004-1024): for an identified socket whose
user record exists, mark offline, blank the socket handle, record last-seen,
and drop the user's entries from `userSocketMap` and `typingStatus`. -/
def handleUserDisconnect (st : ServerState) (userId? : Option String) (now : Nat) :
    ServerState :=
  match userId? with
  | none => st
  | some userId =>
    match mapGet st.users userId with
    | none => st
    | some user =>
      { st with
        users := mapSet st.users userId
          { user with isOnline := false, lastSeen := now, socketId := "" }
        userSocketMap := mapDelete st.userSocketMap userId
        typingStatus := mapDelete st.typingStatus userId }

/-! ## Group Directory: the `group:leave` handler -/

structure SimpleResult where
  success : Bool
  error : Option String
deriving Repr, DecidableEq

/-- Handler for `group:leave` (lines 364-435): append a system message, drop
the membership both ways, and — after answering the caller — delete the group
and its log when the member list became empty. -/
def groupLeave (st : ServerState) (userId? : Option String) (groupId : String)
    (now : Nat) (freshMsgId : String) : ServerState × SimpleResult :=
  match userId? with
  | none => (st, { success := false, error := some "User or group not found" })
  | some userId =>
    match mapGet st.users userId, mapGet st.groups groupId with
    | some user, some group =>
      if group.members.contains userId then
        let sysMsg : Message :=
          { id := freshMsgId, type := MessageType.system, sender := "system",
            recipient := groupId, content := user.username ++ " left the group",
            attachments := none, timestamp := now, delivered := true, read := false,
            replyTo := none, repliedMessage := none,
            deletedForMe := false, deletedForEveryone := false, deletedBy := none }
        let log := (mapGet st.messages groupId).getD []
        let newMembers := group.members.filter (fun i => i != userId)
        let st1 : ServerState :=
          { st with
            messages := mapSet st.messages groupId (log ++ [sysMsg])
            groups := mapSet st.groups groupId { group with members := newMembers }
            users := mapSet st.users userId
              { user with groups := user.groups.filter (fun i => i != groupId) } }
        if newMembers.isEmpty then
          ({ st1 with groups := mapDelete st1.groups groupId
                      messages := mapDelete st1.messages groupId },
           { success := true, error := none })
        else
          (st1, { success := true, error := none })
      else
        (st, { success := false, error := some "Not in group" })
    | _, _ => (st, { success := false, error := some "User or group not found" })

/-! ## Conversation Store and Delivery Engine handlers -/

structure PrivateSendResult where
  success : Bool
  error : Option String
  message : Option Message
  delivered : Bool
  recipientOnline : Bool
deriving Repr, DecidableEq

/-- Handler for `message:private` (lines 550-624).  The stored message's
`delivered` field records `recipient.isOnline`; the response's `delivered`
flag is true only when the recipient is online on this instance and has a
bound socket, and `recipientOnline` echoes `recipient.isOnline`. -/
def messagePrivate (st : ServerState) (senderId? : Option String)
    (recipientId content : String) (attachments : Option (List String))
    (replyTo : Option String) (repliedMessage : Option RepliedSnapshot)
    (now : Nat) (freshId : String) : ServerState × PrivateSendResult :=
  let fail := fun e => (st, { success := false, error := some e, message := none,
                              delivered := false, recipientOnline := false })
  match senderId? with
  | none => fail "User not found"
  | some senderId =>
    match mapGet st.users senderId, mapGet st.users recipientId with
    | some sender, some recipient =>
      if sender.serverId != recipient.serverId then
        fail "Cannot message users from different servers"
      else if strTrim content == "" then
        fail "Message cannot be empty"
      else
        let message : Message :=
          { id := freshId, type := MessageType.privateMsg, sender := senderId,
            recipient := recipientId, content := strTrim content,
            attachments := attachments, timestamp := now,
            delivered := recipient.isOnline, read := false,
            replyTo := replyTo, repliedMessage := repliedMessage,
            deletedForMe := false, deletedForEveryone := false, deletedBy := none }
        let key := conversationKey senderId recipientId
        let log := (mapGet st.messages key).getD []
        let st' : ServerState := { st with messages := mapSet st.messages key (log ++ [message]) }
        let delivered :=
          if recipient.isOnline && recipient.serverId == st.serverId then
            (mapGet st.userSocketMap recipientId).isSome
          else false
        (st', { success := true, error := none, message := some message,
                delivered := delivered, recipientOnline := recipient.isOnline })
    | _, _ => fail "User not found"

/-- Log resolution shared by `messages:get` and `messages:more`
(lines 629-635 and 647-653): a private chat id is the other participant and
is canonicalized against the session's user id; a group chat id is the key. -/
def resolveLog (st : ServerState) (userId? : Option String) (chatId : String)
    (isPrivate : Bool) : List Message :=
  if isPrivate then
    match userId? with
    | some uid => (mapGet st.messages (conversationKey uid chatId)).getD []
    | none => []
  else (mapGet st.messages chatId).getD []

/-- JS `arr.slice(-n)` for `n ≥ 1`: the last `n` elements (all of them when
`n` exceeds the length). -/
def sliceLast {α : Type} (l : List α) (n : Nat) : List α := l.drop (l.length - n)

/-- Handler for `messages:get` (lines 626-642); a limit of 0 is falsy in JS,
so the slice is skipped. -/
def messagesGet (st : ServerState) (userId? : Option String) (chatId : String)
    (isPrivate : Bool) (limit? : Option Nat) : List Message :=
  let msgs := resolveLog st userId? chatId isPrivate
  match limit? with
  | some n => if n == 0 then msgs else sliceLast msgs n
  | none => msgs

/-- Handler for `messages:more` (lines 644-661): filter strictly-before, then
`slice(-limit)` with `limit = data.limit || 20` (so a limit of 0, being
falsy, falls back to 20). -/
def messagesMore (st : ServerState) (userId? : Option String) (chatId : String)
    (isPrivate : Bool) (before : Nat) (limit? : Option Nat) : List Message :=
  let msgs := resolveLog st userId? chatId isPrivate
  let msgs := msgs.filter (fun m => decide (m.timestamp < before))
  let limit := match limit? with
    | some n => if n == 0 then 20 else n
    | none => 20
  sliceLast msgs limit

/-! ## The `message:delete` handler -/

/-- First message with the given id, as `findIndex` locates it. -/
def findMessage (msgs : List Message) (mid : String) : Option Message :=
  msgs.find? (fun m => m.id == mid)

/-- Replace the first message with the given id (the source finds the index
with `findIndex` and overwrites that slot). -/
def setFirst (msgs : List Message) (mid : String) (f : Message → Message) : List Message :=
  match msgs with
  | [] => []
  | m :: rest => if m.id == mid then f m :: rest else m :: setFirst rest mid f

def deletedPlaceholder : String := "This message was deleted"

structure DeleteRequest where
  messageId : String
  chatId : String
  isPrivate : Bool
  deleteForEveryone : Bool
deriving Repr, DecidableEq

/-- Handler for `message:delete` (lines 695-855).  Branches exactly as the
source: private logs are addressed through the canonical pairwise key and
both private branches require the requester to be the sender; the group
delete-for-everyone branch requires the sender, while the group
delete-for-me branch performs the replacement for any identified user. -/
def messageDelete (st : ServerState) (userId? : Option String) (req : DeleteRequest) :
    ServerState × SimpleResult :=
  match userId? with
  | none => (st, { success := false, error := some "User not found" })
  | some userId =>
    if req.isPrivate then
      let key := conversationKey userId req.chatId
      match mapGet st.messages key with
      | none => (st, { success := false, error := some "Messages not found" })
      | some msgs =>
        match findMessage msgs req.messageId with
        | none => (st, { success := false, error := some "Message not found" })
        | some message =>
          if req.deleteForEveryone then
            if message.sender == userId then
              let newMsgs := setFirst msgs req.messageId (fun m =>
                { m with content := deletedPlaceholder, attachments := some [],
                         deletedForEveryone := true, deletedBy := some userId })
              ({ st with messages := mapSet st.messages key newMsgs },
               { success := true, error := none })
            else
              (st, { success := false,
                     error := some "Only the message sender can delete for everyone" })
          else
            if message.sender == userId then
              let newMsgs := setFirst msgs req.messageId (fun m =>
                { m with content := deletedPlaceholder, attachments := some [],
                         deletedForMe := true, deletedBy := some userId })
              ({ st with messages := mapSet st.messages key newMsgs },
               { success := true, error := none })
            else
              (st, { success := false,
                     error := some "You can only delete your own messages for yourself" })
    else
      match mapGet st.messages req.chatId with
      | none => (st, { success := false, error := some "Messages not found" })
      | some msgs =>
        match findMessage msgs req.messageId with
        | none => (st, { success := false, error := some "Message not found" })
        | some message =>
          if req.deleteForEveryone then
            if message.sender == userId then
              let newMsgs := setFirst msgs req.messageId (fun m =>
                { m with content := deletedPlaceholder, attachments := some [],
                         deletedForEveryone := true, deletedBy := some userId })
              ({ st with messages := mapSet st.messages req.chatId newMsgs },
               { success := true, error := none })
            else
              (st, { success := false,
                     error := some "Only the message sender can delete for everyone" })
          else
            let newMsgs := setFirst msgs req.messageId (fun m =>
              { m with content := deletedPlaceholder, attachments := some [],
                       deletedForMe := true, deletedBy := some userId })
            ({ st with messages := mapSet st.messages req.chatId newMsgs },
             { success := true, error := none })

/-! ## Typing Indicator Manager: handlers plus the timer queue

`typing:start` installs the entry, broadcasts, and calls `setTimeout(cb, 3000)`
where the callback captures `userId` and `data` and, on firing, re-checks only
that the live entry's `chatId` equals the captured one before deleting it and
broadcasting "stopped".  Timers are modelled explicitly and drained by a
discrete-time driver: at each instant the due timers fire first (in creation
order), then that instant's inbound events are handled. -/

structure Timer where
  fireAt : Nat
  userId : String
  chatId : String
  isPrivate : Bool
deriving Repr, DecidableEq

structure TypingBroadcast where
  time : Nat
  targetSocket : String
  userId : String
  chatId : String
  isTyping : Bool
deriving Repr, DecidableEq

structure TypingSim where
  st : ServerState
  timers : List Timer
  broadcasts : List TypingBroadcast
deriving Repr, DecidableEq

/-- Audience of a typing broadcast (lines 897-922 and 929-954): the socket of
the addressed user for a private chat; the sockets of the other group members
for a group chat. -/
def typingAudience (st : ServerState) (userId chatId : String) (isPrivate : Bool) :
    List String :=
  if isPrivate then
    match mapGet st.userSocketMap chatId with
    | some sid => [sid]
    | none => []
  else
    match mapGet st.groups chatId with
    | some g => (g.members.filter (fun m => m != userId)).filterMap
        (fun m => mapGet st.userSocketMap m)
    | none => []

/-- Handler for `typing:start` (lines 887-957): set the entry, broadcast
"typing", schedule a stop-timer 3 time units out. -/
def typingStart (sim : TypingSim) (time : Nat) (userId chatId : String)
    (isPrivate : Bool) : TypingSim :=
  let entry : TypingEntry := { chatId := chatId, isPrivate := isPrivate, timestamp := time }
  let st' : ServerState :=
    { sim.st with typingStatus := mapSet sim.st.typingStatus userId entry }
  let tm : Timer := { fireAt := time + 3, userId := userId, chatId := chatId, isPrivate := isPrivate }
  let bc := (typingAudience st' userId chatId isPrivate).map
    (fun s => { time := time, targetSocket := s, userId := userId,
                chatId := chatId, isTyping := true })
  { st := st', timers := sim.timers ++ [tm], broadcasts := sim.broadcasts ++ bc }

/-- Handler for `typing:stop` (lines 959-991). -/
def typingStop (sim : TypingSim) (time : Nat) (userId chatId : String)
    (isPrivate : Bool) : TypingSim :=
  let st' : ServerState :=
    { sim.st with typingStatus := mapDelete sim.st.typingStatus userId }
  let bc := (typingAudience st' userId chatId isPrivate).map
    (fun s => { time := time, targetSocket := s, userId := userId,
                chatId := chatId, isTyping := false })
  { sim with st := st', broadcasts := sim.broadcasts ++ bc }

/-- The `setTimeout` callback (lines 924-956): if the user still has a typing
entry and its `chatId` equals the one captured at scheduling time — the
timestamp is not compared — delete the entry and broadcast "stopped". -/
def timerFire (sim : TypingSim) (tm : Timer) : TypingSim :=
  match mapGet sim.st.typingStatus tm.userId with
  | some entry =>
    if entry.chatId == tm.chatId then
      let bc := (typingAudience sim.st tm.userId tm.chatId tm.isPrivate).map
        (fun s => { time := tm.fireAt, targetSocket := s, userId := tm.userId,
                    chatId := tm.chatId, isTyping := false })
      { sim with
        st := { sim.st with typingStatus := mapDelete sim.st.typingStatus tm.userId }
        broadcasts := sim.broadcasts ++ bc }
    else sim
  | none => sim

inductive TypingEvent where
  | start (time : Nat) (userId chatId : String) (isPrivate : Bool)
  | stop (time : Nat) (userId chatId : String) (isPrivate : Bool)
deriving Repr, DecidableEq

def typingTick (events : List TypingEvent) (sim : TypingSim) (time : Nat) : TypingSim :=
  let due := sim.timers.filter (fun tm => tm.fireAt == time)
  let sim1 := due.foldl timerFire
    { sim with timers := sim.timers.filter (fun tm => tm.fireAt != time) }
  events.foldl (fun acc e =>
    match e with
    | TypingEvent.start t u c p => if t == time then typingStart acc time u c p else acc
    | TypingEvent.stop t u c p => if t == time then typingStop acc time u c p else acc) sim1

/-- Run the typing subsystem from instant 0 through `horizon` inclusive. -/
def typingSimulate (st0 : ServerState) (events : List TypingEvent) (horizon : Nat) :
    TypingSim :=
  (List.range (horizon + 1)).foldl (typingTick events)
    { st := st0, timers := [], broadcasts := [] }

/-! ## Concrete fixtures used by the closed evidence theorems -/

def wUserA : User :=
  { id := "uA", username := "alice", socketId := "sA", serverId := "s1",
    groups := [], isOnline := true, lastSeen := 0 }

def wUserB : User :=
  { id := "uB", username := "bob", socketId := "sB", serverId := "s1",
    groups := [], isOnline := true, lastSeen := 0 }

def wUserBOff : User :=
  { id := "uB", username := "bob", socketId := "", serverId := "s1",
    groups := [], isOnline := false, lastSeen := 0 }

/-- Two `user:join` requests, both carrying the name "alice " with a trailing
space, against a fresh instance. -/
def c1Step1 : ServerState × JoinResult :=
  userJoin (initState "server1") "sock1" "alice " 0 "id-1"

def c1Step2 : ServerState × JoinResult := userJoin c1Step1.1 "sock2" "alice " 1 "id-2"

def c2State : ServerState :=
  { serverId := "s1", users := [("uA", wUserA), ("uB", wUserB)], groups := [],
    messages := [], userSocketMap := [("uA", "sA"), ("uB", "sB")], typingStatus := [] }

/-- The same user starts typing in the same private chat at instants 0 and 1,
with no explicit stop. -/
def c2Events : List TypingEvent :=
  [TypingEvent.start 0 "uA" "uB" true, TypingEvent.start 1 "uA" "uB" true]

/-- A stored private message from uA to uB with content and an attachment. -/
def pmMsg : Message :=
  { id := "m1", type := MessageType.privateMsg, sender := "uA", recipient := "uB",
    content := "hello there", attachments := some ["file.png"], timestamp := 10,
    delivered := true, read := false, replyTo := none, repliedMessage := none,
    deletedForMe := false, deletedForEveryone := false, deletedBy := none }

def c3State : ServerState :=
  { serverId := "s1", users := [("uA", wUserA), ("uB", wUserB)], groups := [],
    messages := [(conversationKey "uA" "uB", [pmMsg])],
    userSocketMap := [("uA", "sA"), ("uB", "sB")], typingStatus := [] }

def c3Req : DeleteRequest :=
  { messageId := "m1", chatId := "uB", isPrivate := true, deleteForEveryone := false }

def c7Req : DeleteRequest :=
  { messageId := "m1", chatId := "uA", isPrivate := true, deleteForEveryone := true }

def c9PrivReq : DeleteRequest :=
  { messageId := "m1", chatId := "uA", isPrivate := true, deleteForEveryone := false }

def gMsg : Message := { pmMsg with type := MessageType.group, recipient := "g1" }

def c4Group : Group :=
  { id := "g9", name := "Gr", description := none, creator := "uA",
    members := ["uA"], createdAt := 0 }

def c4State : ServerState :=
  { serverId := "s1", users := [("uA", wUserA)], groups := [("g9", c4Group)],
    messages := [("g9", [])], userSocketMap := [("uA", "sA")], typingStatus := [] }

def c9GroupState : ServerState :=
  { serverId := "s1", users := [("uA", wUserA), ("uB", wUserB)],
    groups := [("g1", { c4Group with id := "g1", members := ["uA", "uB"] })],
    messages := [("g1", [gMsg])], userSocketMap := [], typingStatus := [] }

def c9GroupReq : DeleteRequest :=
  { messageId := "m1", chatId := "g1", isPrivate := false, deleteForEveryone := false }

def c6Msgs : List Message :=
  [ { pmMsg with id := "n1", timestamp := 1 }
  , { pmMsg with id := "n2", timestamp := 2 }
  , { pmMsg with id := "n3", timestamp := 3 } ]

def c6State : ServerState :=
  { serverId := "s1", users := [], groups := [], messages := [("g1", c6Msgs)],
    userSocketMap := [], typingStatus := [] }

def c8State : ServerState :=
  { serverId := "s1", users := [("uA", wUserA), ("uB", wUserBOff)], groups := [],
    messages := [], userSocketMap := [("uA", "sA")], typingStatus := [] }

def c10State : ServerState :=
  { serverId := "s1", users := [("uA", wUserA)], groups := [], messages := [],
    userSocketMap := [("uA", "sA")],
    typingStatus := [("uA", { chatId := "uB", isPrivate := true, timestamp := 3 })] }

/-! ## Helper lemmas -/

theorem char_toNat_inj {a b : Char} (h : a.toNat = b.toNat) : a = b := by
  apply Char.ext
  exact UInt32.ext h

theorem charListLe_total (l1 l2 : List Char) :
    charListLe l1 l2 = true ∨ charListLe l2 l1 = true := by
  induction l1 generalizing l2 with
  | nil => left; rfl
  | cons a as ih =>
    cases l2 with
    | nil => right; rfl
    | cons b bs =>
      by_cases h1 : a.toNat < b.toNat
      · left; simp [charListLe, h1]
      · by_cases h2 : b.toNat < a.toNat
        · right; simp [charListLe, h1, h2]
        · rcases ih bs with h | h
          · left; simp [charListLe, h1, h2, h]
          · right; simp [charListLe, h1, h2, h]

theorem charListLe_antisymm {l1 l2 : List Char} (h1 : charListLe l1 l2 = true)
    (h2 : charListLe l2 l1 = true) : l1 = l2 := by
  induction l1 generalizing l2 with
  | nil =>
    cases l2 with
    | nil => rfl
    | cons b bs => simp [charListLe] at h2
  | cons a as ih =>
    cases l2 with
    | nil => simp [charListLe] at h1
    | cons b bs =>
      by_cases hab : a.toNat < b.toNat
      · simp [charListLe, hab, Nat.lt_asymm hab] at h2
      · by_cases hba : b.toNat < a.toNat
        · simp [charListLe, hab, hba] at h1
        · have hc : a = b := char_toNat_inj (by omega)
          subst hc
          simp [charListLe, hab, hba] at h1 h2
          exact congrArg (a :: ·) (ih h1 h2)

theorem strLe_antisymm {a b : String} (h1 : strLe a b = true) (h2 : strLe b a = true) :
    a = b := by
  cases a with
  | mk d1 =>
    cases b with
    | mk d2 =>
      have h := charListLe_antisymm h1 h2
      simp only at h
      rw [h]

theorem conversationKey_symm (a b : String) : conversationKey a b = conversationKey b a := by
  unfold conversationKey
  by_cases h1 : strLe a b = true
  · by_cases h2 : strLe b a = true
    · have h : a = b := strLe_antisymm h1 h2
      subst h
      simp
    · simp [h1, h2]
  · rcases charListLe_total a.data b.data with h | h
    · exact absurd h h1
    · have h2 : strLe b a = true := h
      simp [h1, h2]

theorem mapGet_set_self {α : Type} (m : List (String × α)) (k : String) (v : α) :
    mapGet (mapSet m k v) k = some v := by
  induction m with
  | nil => simp [mapSet, mapGet]
  | cons p rest ih =>
    by_cases h : p.1 == k
    · simp [mapSet, h, mapGet]
    · simp [mapSet, h, mapGet, ih]

theorem mapGet_delete_self {α : Type} (m : List (String × α)) (k : String) :
    mapGet (mapDelete m k) k = none := by
  induction m with
  | nil => rfl
  | cons p rest ih =>
    by_cases h : p.1 == k
    · simp [mapDelete, h, ih]
    · simp [mapDelete, h, mapGet, ih]

theorem findMessage_setFirst (msgs : List Message) (mid : String) (f : Message → Message)
    (hf : ∀ m, (f m).id = m.id) :
    findMessage (setFirst msgs mid f) mid = (findMessage msgs mid).map f := by
  induction msgs with
  | nil => rfl
  | cons m rest ih =>
    by_cases h : m.id == mid
    · have h' : ((f m).id == mid) = true := by rw [hf m]; exact h
      simp [setFirst, findMessage, List.find?, h, h']
    · have hb : (m.id == mid) = false := by simp_all
      simp [setFirst, findMessage, List.find?, hb] at ih ⊢
      exact ih

/-! ## Claim C5: order-independence of the private conversation key -/

/-- C5: for every pair of user ids A and B, the canonical private conversation
key computed when A addresses B equals the key computed when B addresses A
(`[a, b].sort().join('_')` is a deterministic, order-independent function of
the unordered pair), so both directions of a private chat resolve to the same
message log. -/
theorem conversationKey_order_independent (st : ServerState) (a b : String) :
    conversationKey a b = conversationKey b a ∧
    resolveLog st (some a) b true = resolveLog st (some b) a true := by
  refine ⟨conversationKey_symm a b, ?_⟩
  simp [resolveLog, conversationKey_symm a b]

/-! ## Claim C1: the online display-name uniqueness invariant is violated -/

/-- C1 (code evidence): two `user:join` requests both carrying the raw name
"alice " (trailing space) are both accepted, because the taken-name check
compares the untrimmed request string against stored usernames while the
stored username is the trimmed string.  The reachable state `c1Step2.1` holds
two distinct user records ("id-1" and "id-2"), both online on instance
"server1" and both with display name "alice" — refuting the claimed
invariant that display names are unique among currently-online users on the
same instance. -/
theorem userJoin_untrimmed_check_breaks_online_name_uniqueness :
    c1Step2.2.success = true ∧
    (mapGet c1Step2.1.users "id-1").map (fun u => (u.username, u.serverId, u.isOnline)) =
      some ("alice", "server1", true) ∧
    (mapGet c1Step2.1.users "id-2").map (fun u => (u.username, u.serverId, u.isOnline)) =
      some ("alice", "server1", true) := by
  refine ⟨rfl, rfl, rfl⟩

/-! ## Claim C2: a second typing:start does not reset the expiry window -/

/-- C2 (code evidence): after `typing:start` events at instants 0 and 1 for
the same user and conversation and no explicit stop, the stale timer
scheduled by the first start fires at instant 3 — its callback checks only
that the live typing entry's chatId equals the captured one, which the entry
installed by the second start satisfies — so a "stopped" broadcast
(isTyping = false) reaches the recipient's socket at instant 3, strictly
before the second window would elapse at instant 1 + 3 = 4.  This refutes
the claim that the second start supersedes the first start's scheduled
broadcast. -/
theorem typingStart_restart_stale_timer_fires_early :
    (typingSimulate c2State c2Events 10).broadcasts =
      [ { time := 0, targetSocket := "sB", userId := "uA", chatId := "uB", isTyping := true }
      , { time := 1, targetSocket := "sB", userId := "uA", chatId := "uB", isTyping := true }
      , { time := 3, targetSocket := "sB", userId := "uA", chatId := "uB", isTyping := false } ] ∧
    3 < 1 + 3 := by
  refine ⟨rfl, by decide⟩

/-! ## Claim C4: zero-member groups and deletion on last leave -/

/-- C4 (counterexample): the engine's initial state — reachable by
construction, before any event — already contains the sample group "group-1"
with an empty member list, refuting the claim that no group with zero members
exists in the group directory in any reachable state. -/
theorem initState_has_zero_member_group :
    (mapGet (initState "server1").groups "group-1").map (fun g => g.members) =
      some [] := by
  rfl

/-- C4 (amended): when a `group:leave` request removes the last member of a
group — the user and group exist, the user is a member, and no other member
remains — the operation succeeds and, as a side effect of leave itself, the
group is removed from the group directory and its conversation log is removed
from the message store, with no explicit delete call.  (The initial sample
groups show the zero-member invariant itself does not hold of every reachable
state.) -/
theorem groupLeave_last_member_deletes_group
    (st : ServerState) (userId groupId : String) (now : Nat) (freshMsgId : String)
    (user : User) (group : Group)
    (hu : mapGet st.users userId = some user)
    (hg : mapGet st.groups groupId = some group)
    (hmem : group.members.contains userId = true)
    (hlast : group.members.filter (fun i => i != userId) = []) :
    (groupLeave st (some userId) groupId now freshMsgId).2 =
      { success := true, error := none } ∧
    mapGet (groupLeave st (some userId) groupId now freshMsgId).1.groups groupId = none ∧
    mapGet (groupLeave st (some userId) groupId now freshMsgId).1.messages groupId = none := by
  simp only [groupLeave, hu, hg, hmem, hlast, if_true, List.isEmpty_nil]
  refine ⟨trivial, ?_, ?_⟩ <;> exact mapGet_delete_self _ _

/-- Witness for `groupLeave_last_member_deletes_group` at the concrete state
`c4State`, where "uA" is the sole member of group "g9". -/
theorem groupLeave_last_member_witness :
    (groupLeave c4State (some "uA") "g9" 5 "m-sys").2 =
      { success := true, error := none } ∧
    mapGet (groupLeave c4State (some "uA") "g9" 5 "m-sys").1.groups "g9" = none ∧
    mapGet (groupLeave c4State (some "uA") "g9" 5 "m-sys").1.messages "g9" = none :=
  groupLeave_last_member_deletes_group c4State "uA" "g9" 5 "m-sys" wUserA c4Group
    (by decide) (by decide) (by decide) (by decide)

/-! ## Claim C3: private delete-for-me mutates the shared stored record -/

/-- C3 (counterexample): in `c3State` the single shared log entry of the
uA/uB private conversation holds content "hello there" and one attachment;
after uA's `message:delete` with `deleteForEveryone = false` the stored entry
the other party reads has the placeholder content and an emptied attachment
list — so the canonical stored record is affected, refuting the claim that
content and attachments are unchanged. -/
theorem messageDelete_private_forMe_mutates_stored_record :
    pmMsg.content = "hello there" ∧ pmMsg.attachments = some ["file.png"] ∧
    (messageDelete c3State (some "uA") c3Req).2 = { success := true, error := none } ∧
    ((mapGet (messageDelete c3State (some "uA") c3Req).1.messages
        (conversationKey "uA" "uB")).getD []).map (fun m => (m.content, m.attachments)) =
      [(deletedPlaceholder, some [])] := by
  refine ⟨rfl, rfl, rfl, rfl⟩

/-- C3 (amended): a private `message:delete` with `deleteForEveryone = false`
(accepted only when the requester is the message's sender) succeeds and
replaces the one shared stored log entry in place: its content becomes the
fixed placeholder, its attachments are cleared, and `deletedForMe` and
`deletedBy` are set — so the canonical record the other party sees is
affected, contrary to the claim. -/
theorem messageDelete_private_forMe_replaces_content
    (st : ServerState) (userId : String) (req : DeleteRequest)
    (msgs : List Message) (m : Message)
    (hp : req.isPrivate = true) (hfe : req.deleteForEveryone = false)
    (hlog : mapGet st.messages (conversationKey userId req.chatId) = some msgs)
    (hfind : findMessage msgs req.messageId = some m)
    (hsender : m.sender = userId) :
    (messageDelete st (some userId) req).2 = { success := true, error := none } ∧
    mapGet (messageDelete st (some userId) req).1.messages
        (conversationKey userId req.chatId) =
      some (setFirst msgs req.messageId (fun mm =>
        { mm with content := deletedPlaceholder, attachments := some [],
                  deletedForMe := true, deletedBy := some userId })) ∧
    findMessage ((mapGet (messageDelete st (some userId) req).1.messages
        (conversationKey userId req.chatId)).getD []) req.messageId =
      some { m with content := deletedPlaceholder, attachments := some [],
                    deletedForMe := true, deletedBy := some userId } := by
  have hb : (m.sender == userId) = true := by simp [hsender]
  have heq : messageDelete st (some userId) req =
      ({ st with
          messages :=
            mapSet st.messages (conversationKey userId req.chatId)
              (setFirst msgs req.messageId (fun mm =>
                { mm with content := deletedPlaceholder, attachments := some [],
                          deletedForMe := true, deletedBy := some userId })) },
       { success := true, error := none }) := by
    simp [messageDelete, hp, hfe, hlog, hfind, hb]
  rw [heq]
  refine ⟨rfl, mapGet_set_self _ _ _, ?_⟩
  rw [mapGet_set_self]
  simp only [Option.getD_some]
  rw [findMessage_setFirst msgs req.messageId (fun mm =>
    { mm with content := deletedPlaceholder, attachments := some [],
              deletedForMe := true, deletedBy := some userId }) (fun mm => rfl), hfind]
  rfl

/-- Witness for `messageDelete_private_forMe_replaces_content` at the
concrete state `c3State` with requester uA, the sender of the message. -/
theorem messageDelete_private_forMe_witness :
    (messageDelete c3State (some "uA") c3Req).2 = { success := true, error := none } ∧
    mapGet (messageDelete c3State (some "uA") c3Req).1.messages
        (conversationKey "uA" c3Req.chatId) =
      some (setFirst [pmMsg] c3Req.messageId (fun mm =>
        { mm with content := deletedPlaceholder, attachments := some [],
                  deletedForMe := true, deletedBy := some "uA" })) ∧
    findMessage ((mapGet (messageDelete c3State (some "uA") c3Req).1.messages
        (conversationKey "uA" c3Req.chatId)).getD []) c3Req.messageId =
      some { pmMsg with content := deletedPlaceholder, attachments := some [],
                        deletedForMe := true, deletedBy := some "uA" } :=
  messageDelete_private_forMe_replaces_content c3State "uA" c3Req [pmMsg] pmMsg
    rfl rfl (by decide) (by decide) rfl

/-! ## Claim C6: messages:more pagination -/

/-- C6 (counterexample): with limit n = 0, `messages:more` does not return at
most 0 messages: JS `data.limit || 20` treats the limit 0 as absent and falls
back to 20, so on a log with three old messages the handler returns three of
them. -/
theorem messagesMore_zero_limit_exceeds_bound :
    ¬ ((messagesMore c6State none "g1" false 5 (some 0)).length ≤ 0) := by
  decide

/-- C6 (amended): for every state, session, chat, cutoff t and limit n with
n ≥ 1 (a limit of 0 is falsy in JS and falls back to the default 20),
`messages:more` returns only messages with timestamp strictly below t, at
most n of them, exactly min n (number of matching messages) of them — the
most recent ones, being a suffix of the filtered log — and in chronological
order whenever the underlying log is chronologically ordered. -/
theorem messagesMore_readBefore_spec
    (st : ServerState) (userId? : Option String) (chatId : String) (isPrivate : Bool)
    (t n : Nat) (hn : 1 ≤ n) :
    (∀ m, m ∈ messagesMore st userId? chatId isPrivate t (some n) → m.timestamp < t) ∧
    (messagesMore st userId? chatId isPrivate t (some n)).length ≤ n ∧
    (messagesMore st userId? chatId isPrivate t (some n)).length =
      min n ((resolveLog st userId? chatId isPrivate).filter
        (fun m => decide (m.timestamp < t))).length ∧
    List.IsSuffix (messagesMore st userId? chatId isPrivate t (some n))
      ((resolveLog st userId? chatId isPrivate).filter (fun m => decide (m.timestamp < t))) ∧
    (List.Pairwise (fun a b => a.timestamp ≤ b.timestamp)
        (resolveLog st userId? chatId isPrivate) →
      List.Pairwise (fun a b => a.timestamp ≤ b.timestamp)
        (messagesMore st userId? chatId isPrivate t (some n))) := by
  have hn0 : (n == 0) = false := by
    simp only [beq_eq_false_iff_ne, ne_eq]
    omega
  have heq : messagesMore st userId? chatId isPrivate t (some n) =
      ((resolveLog st userId? chatId isPrivate).filter
        (fun m => decide (m.timestamp < t))).drop
        (((resolveLog st userId? chatId isPrivate).filter
          (fun m => decide (m.timestamp < t))).length - n) := by
    simp [messagesMore, sliceLast, hn0]
  rw [heq]
  refine ⟨?_, ?_, ?_, ?_, ?_⟩
  · intro m hm
    have hmF := List.mem_of_mem_drop hm
    rw [List.mem_filter] at hmF
    exact of_decide_eq_true hmF.2
  · rw [List.length_drop]
    omega
  · rw [List.length_drop]
    omega
  · exact List.drop_suffix _ _
  · intro hsorted
    have hF : List.Pairwise (fun a b => a.timestamp ≤ b.timestamp)
        ((resolveLog st userId? chatId isPrivate).filter
          (fun m => decide (m.timestamp < t))) :=
      List.Pairwise.sublist (List.filter_sublist _) hsorted
    exact List.Pairwise.sublist (List.drop_sublist _ _) hF

/-- Witness for `messagesMore_readBefore_spec` at the concrete state
`c6State` with cutoff 3 and limit 1. -/
theorem messagesMore_readBefore_witness :
    (∀ m, m ∈ messagesMore c6State none "g1" false 3 (some 1) → m.timestamp < 3) ∧
    (messagesMore c6State none "g1" false 3 (some 1)).length ≤ 1 ∧
    (messagesMore c6State none "g1" false 3 (some 1)).length =
      min 1 ((resolveLog c6State none "g1" false).filter
        (fun m => decide (m.timestamp < 3))).length ∧
    List.IsSuffix (messagesMore c6State none "g1" false 3 (some 1))
      ((resolveLog c6State none "g1" false).filter (fun m => decide (m.timestamp < 3))) ∧
    (List.Pairwise (fun a b => a.timestamp ≤ b.timestamp)
        (resolveLog c6State none "g1" false) →
      List.Pairwise (fun a b => a.timestamp ≤ b.timestamp)
        (messagesMore c6State none "g1" false 3 (some 1))) :=
  messagesMore_readBefore_spec c6State none "g1" false 3 1 (by decide)

/-! ## Claim C7: delete-for-everyone by a non-sender is forbidden -/

/-- C7: a `message:delete` with `deleteForEveryone = true` whose requester is
not the stored message's sender fails with the Forbidden reason and leaves
the entire state — in particular the stored message's content, attachments
and deletion markers — unchanged, in both the private and the group branch. -/
theorem messageDelete_forEveryone_nonsender_forbidden
    (st : ServerState) (userId : String) (req : DeleteRequest)
    (msgs : List Message) (m : Message)
    (hfe : req.deleteForEveryone = true)
    (hlog : mapGet st.messages
      (if req.isPrivate then conversationKey userId req.chatId else req.chatId) = some msgs)
    (hfind : findMessage msgs req.messageId = some m)
    (hsender : m.sender ≠ userId) :
    messageDelete st (some userId) req =
      (st, { success := false,
             error := some "Only the message sender can delete for everyone" }) := by
  have hb : (m.sender == userId) = false := by simp [hsender]
  cases hp : req.isPrivate with
  | false =>
    rw [hp] at hlog
    simp only [Bool.false_eq_true, if_false] at hlog
    simp [messageDelete, hp, hfe, hlog, hfind, hb]
  | true =>
    rw [hp] at hlog
    simp only [if_true] at hlog
    simp [messageDelete, hp, hfe, hlog, hfind, hb]

/-- Witness for `messageDelete_forEveryone_nonsender_forbidden`: in `c3State`
the non-sender uB requests delete-for-everyone of uA's message. -/
theorem messageDelete_forEveryone_nonsender_witness :
    messageDelete c3State (some "uB") c7Req =
      (c3State, { success := false,
                  error := some "Only the message sender can delete for everyone" }) :=
  messageDelete_forEveryone_nonsender_forbidden c3State "uB" c7Req [pmMsg] pmMsg
    rfl (by decide) (by decide) (by decide)

/-! ## Claim C9: asymmetry of delete-for-me between private and group chats -/

/-- C9: delete-for-me is asymmetric between conversation kinds.  In a private
conversation, `message:delete` with `deleteForEveryone = false` by any
identified user other than the message's sender fails with the
own-messages-only reason and leaves the state unchanged; in a group
conversation the same request succeeds for any identified user regardless of
the message's sender, replacing the shared stored content with the
placeholder and marking `deletedForMe`. -/
theorem messageDelete_forMe_private_group_asymmetry :
    (∀ (st : ServerState) (userId : String) (req : DeleteRequest)
        (msgs : List Message) (m : Message),
      req.isPrivate = true → req.deleteForEveryone = false →
      mapGet st.messages (conversationKey userId req.chatId) = some msgs →
      findMessage msgs req.messageId = some m → m.sender ≠ userId →
      messageDelete st (some userId) req =
        (st, { success := false,
               error := some "You can only delete your own messages for yourself" })) ∧
    (∀ (st : ServerState) (userId : String) (req : DeleteRequest)
        (msgs : List Message) (m : Message),
      req.isPrivate = false → req.deleteForEveryone = false →
      mapGet st.messages req.chatId = some msgs →
      findMessage msgs req.messageId = some m →
      (messageDelete st (some userId) req).2 = { success := true, error := none } ∧
      findMessage ((mapGet (messageDelete st (some userId) req).1.messages
          req.chatId).getD []) req.messageId =
        some { m with content := deletedPlaceholder, attachments := some [],
                      deletedForMe := true, deletedBy := some userId }) := by
  constructor
  · intro st userId req msgs m hp hfe hlog hfind hsender
    have hb : (m.sender == userId) = false := by simp [hsender]
    simp [messageDelete, hp, hfe, hlog, hfind, hb]
  · intro st userId req msgs m hp hfe hlog hfind
    have heq : messageDelete st (some userId) req =
        ({ st with
            messages :=
              mapSet st.messages req.chatId
                (setFirst msgs req.messageId (fun mm =>
                  { mm with content := deletedPlaceholder, attachments := some [],
                            deletedForMe := true, deletedBy := some userId })) },
         { success := true, error := none }) := by
      simp [messageDelete, hp, hfe, hlog, hfind]
    rw [heq]
    refine ⟨rfl, ?_⟩
    rw [mapGet_set_self]
    simp only [Option.getD_some]
    rw [findMessage_setFirst msgs req.messageId (fun mm =>
      { mm with content := deletedPlaceholder, attachments := some [],
                deletedForMe := true, deletedBy := some userId }) (fun mm => rfl), hfind]
    rfl

/-- Witness for `messageDelete_forMe_private_group_asymmetry`: uB, not the
sender, is rejected on the private log of `c3State` but succeeds on the group
log of `c9GroupState`, where the shared entry gets the placeholder. -/
theorem messageDelete_forMe_asymmetry_witness :
    (messageDelete c3State (some "uB") c9PrivReq =
      (c3State, { success := false,
                  error := some "You can only delete your own messages for yourself" })) ∧
    ((messageDelete c9GroupState (some "uB") c9GroupReq).2 =
        { success := true, error := none } ∧
      findMessage ((mapGet (messageDelete c9GroupState (some "uB") c9GroupReq).1.messages
          c9GroupReq.chatId).getD []) c9GroupReq.messageId =
        some { gMsg with content := deletedPlaceholder, attachments := some [],
                         deletedForMe := true, deletedBy := some "uB" }) :=
  ⟨messageDelete_forMe_private_group_asymmetry.1 c3State "uB" c9PrivReq [pmMsg] pmMsg
      rfl rfl (by decide) (by decide) (by decide),
   messageDelete_forMe_private_group_asymmetry.2 c9GroupState "uB" c9GroupReq [gMsg] gMsg
      rfl rfl (by decide) (by decide)⟩

/-! ## Claim C8: private message to an offline same-instance recipient -/

/-- C8: an accepted private message from an identified sender to an existing
recipient on the same instance who is offline reports `delivered = false` and
`recipientOnline = false`, yet the message is appended to the canonical
pairwise conversation log, where it is retrievable by the recipient (via
`messages:get` addressed at the sender) after reconnecting. -/
theorem messagePrivate_offline_recipient_persists
    (st : ServerState) (senderId recipientId content : String)
    (atts : Option (List String)) (rTo : Option String) (rMsg : Option RepliedSnapshot)
    (now : Nat) (freshId sock2 : String) (later : Nat)
    (sender recipient : User)
    (hs : mapGet st.users senderId = some sender)
    (hr : mapGet st.users recipientId = some recipient)
    (hsrv : sender.serverId = recipient.serverId)
    (hoff : recipient.isOnline = false)
    (hc : (strTrim content == "") = false) :
    (messagePrivate st (some senderId) recipientId content atts rTo rMsg now freshId).2.success
      = true ∧
    (messagePrivate st (some senderId) recipientId content atts rTo rMsg now freshId).2.delivered
      = false ∧
    (messagePrivate st (some senderId) recipientId content atts rTo rMsg
        now freshId).2.recipientOnline = false ∧
    ∃ msg : Message,
      (messagePrivate st (some senderId) recipientId content atts rTo rMsg
          now freshId).2.message = some msg ∧
      msg.sender = senderId ∧ msg.recipient = recipientId ∧
      msg.content = strTrim content ∧
      msg ∈ messagesGet
        (userReconnect
          (messagePrivate st (some senderId) recipientId content atts rTo rMsg now freshId).1
          sock2 recipientId later).1
        (some recipientId) senderId true none := by
  have hbne : (sender.serverId != recipient.serverId) = false := by simp [hsrv]
  have heq : messagePrivate st (some senderId) recipientId content atts rTo rMsg now freshId =
      ({ st with
          messages :=
            mapSet st.messages (conversationKey senderId recipientId)
              (((mapGet st.messages (conversationKey senderId recipientId)).getD []) ++
                [{ id := freshId, type := MessageType.privateMsg, sender := senderId,
                   recipient := recipientId, content := strTrim content, attachments := atts,
                   timestamp := now, delivered := recipient.isOnline, read := false,
                   replyTo := rTo, repliedMessage := rMsg, deletedForMe := false,
                   deletedForEveryone := false, deletedBy := none }]) },
       { success := true, error := none,
         message := some
           { id := freshId, type := MessageType.privateMsg, sender := senderId,
             recipient := recipientId, content := strTrim content, attachments := atts,
             timestamp := now, delivered := recipient.isOnline, read := false,
             replyTo := rTo, repliedMessage := rMsg, deletedForMe := false,
             deletedForEveryone := false, deletedBy := none },
         delivered := false, recipientOnline := recipient.isOnline }) := by
    simp [messagePrivate, hs, hr, hbne, hc, hoff]
  rw [heq]
  refine ⟨rfl, rfl, hoff, ?_⟩
  refine ⟨_, rfl, rfl, rfl, rfl, ?_⟩
  simp only [userReconnect, hr, messagesGet, resolveLog, if_true]
  rw [conversationKey_symm recipientId senderId, mapGet_set_self]
  simp

/-- Witness for `messagePrivate_offline_recipient_persists` at `c8State`,
where uB is offline and uA sends "hi there". -/
theorem messagePrivate_offline_recipient_witness :
    (messagePrivate c8State (some "uA") "uB" "hi there" none none none 7 "m7").2.success
      = true ∧
    (messagePrivate c8State (some "uA") "uB" "hi there" none none none 7 "m7").2.delivered
      = false ∧
    (messagePrivate c8State (some "uA") "uB" "hi there" none none none
        7 "m7").2.recipientOnline = false ∧
    ∃ msg : Message,
      (messagePrivate c8State (some "uA") "uB" "hi there" none none none
          7 "m7").2.message = some msg ∧
      msg.sender = "uA" ∧ msg.recipient = "uB" ∧
      msg.content = strTrim "hi there" ∧
      msg ∈ messagesGet
        (userReconnect
          (messagePrivate c8State (some "uA") "uB" "hi there" none none none 7 "m7").1
          "sB2" "uB" 9).1
        (some "uB") "uA" true none :=
  messagePrivate_offline_recipient_persists c8State "uA" "uB" "hi there" none none none
    7 "m7" "sB2" 9 wUserA wUserBOff rfl rfl rfl rfl (by decide)

/-! ## Claim C10: disconnect clears the typing entry and the socket binding -/

/-- C10: for an identified user whose record exists, a disconnect — besides
marking the user offline, blanking the connection handle and recording
last-seen — also removes the user's entry from the typing table and the
user-to-socket map, so no typing entry for that user remains afterwards. -/
theorem handleUserDisconnect_clears_typing_and_binding
    (st : ServerState) (userId : String) (now : Nat) (u : User)
    (hu : mapGet st.users userId = some u) :
    mapGet (handleUserDisconnect st (some userId) now).typingStatus userId = none ∧
    mapGet (handleUserDisconnect st (some userId) now).userSocketMap userId = none ∧
    mapGet (handleUserDisconnect st (some userId) now).users userId =
      some { u with isOnline := false, socketId := "", lastSeen := now } := by
  simp only [handleUserDisconnect, hu]
  exact ⟨mapGet_delete_self _ _, mapGet_delete_self _ _, mapGet_set_self _ _ _⟩

/-- Witness for `handleUserDisconnect_clears_typing_and_binding` at
`c10State`, where uA is online, bound to a socket, and typing. -/
theorem handleUserDisconnect_clears_witness :
    mapGet (handleUserDisconnect c10State (some "uA") 9).typingStatus "uA" = none ∧
    mapGet (handleUserDisconnect c10State (some "uA") 9).userSocketMap "uA" = none ∧
    mapGet (handleUserDisconnect c10State (some "uA") 9).users "uA" =
      some { wUserA with isOnline := false, socketId := "", lastSeen := 9 } :=
  handleUserDisconnect_clears_typing_and_binding c10State "uA" 9 wUserA rfl

end ChatApp
